import Mathlib

/-!
Verification of the wire-transfer submission module (`src/api/submit.js`):
a request validator, a PDF table-layout renderer built on an event-driven
document engine, and an email dispatch step.  JavaScript values that matter
to the code's dynamic behaviour (missing keys, string coercion, truthiness)
are modelled explicitly.
-/

/-- A JavaScript value as far as this module observes them: a missing key
reads as `undefined`; the fields carry strings or numbers (numbers are
modelled as rationals; floating-point rounding is not exercised by the
inputs considered here). -/
inductive JsVal where
  | undef
  | vstr (s : String)
  | vnum (q : ℚ)
deriving DecidableEq, Repr

/-- JavaScript truthiness as used by `if (!d[field])`: `undefined` is falsy,
`""` is falsy, `0` is falsy. -/
def truthy : JsVal → Bool
  | .undef => false
  | .vstr s => s ≠ ""
  | .vnum q => q ≠ 0

/-- JavaScript string coercion as applied by `+` and template literals:
`undefined` coerces to the literal text "undefined".  Number-to-string
coercion is modelled by the rational's representation; no claim depends
on it. -/
def jsToString : JsVal → String
  | .undef => "undefined"
  | .vstr s => s
  | .vnum q => toString q

/-- Numeric coercion for `fmt(d.amount)`; only the numeric case is
exercised (validation guarantees `amount` is truthy in every considered
run, and the claims pass numbers). -/
def toNum : JsVal → ℚ
  | .vnum q => q
  | _ => 0

/-- `value.split('\n')` of JavaScript, on the character list of the string:
splits on every newline, keeping empty segments, and yields `[[]]` on the
empty string (so the result is never empty). -/
def splitNl : List Char → List (List Char)
  | [] => [[]]
  | c :: cs =>
    if c = '\n' then [] :: splitNl cs
    else
      match splitNl cs with
      | [] => [[c]]
      | l :: ls => (c :: l) :: ls

theorem splitNl_ne_nil (l : List Char) : splitNl l ≠ [] := by
  induction l with
  | nil => simp [splitNl]
  | cons c cs ih =>
    simp only [splitNl]
    split
    · simp
    · rcases h : splitNl cs with _ | ⟨p, ps⟩
      · simp
      · simp

theorem length_splitNl (l : List Char) :
    (splitNl l).length = l.count '\n' + 1 := by
  induction l with
  | nil => simp [splitNl]
  | cons c cs ih =>
    simp only [splitNl]
    by_cases hc : c = '\n'
    · subst hc
      simp [List.count_cons, ih]
    · rcases h : splitNl cs with _ | ⟨p, ps⟩
      · exact absurd h (splitNl_ne_nil cs)
      · simp only [if_neg hc]
        have := ih
        rw [h] at this
        simp only [List.length_cons] at this ⊢
        simp [List.count_cons, hc]
        omega

theorem splitNl_no_newline {l : List Char} (h : '\n' ∉ l) :
    splitNl l = [l] := by
  induction l with
  | nil => rfl
  | cons c cs ih =>
    have hc : ¬c = '\n' := fun hcc => h (by simp [hcc])
    have h2 : '\n' ∉ cs := fun hm => h (List.mem_cons_of_mem _ hm)
    simp [splitNl, hc, ih h2]

theorem splitNl_append_newline {xs : List Char} (ys : List Char)
    (h : '\n' ∉ xs) :
    splitNl (xs ++ '\n' :: ys) = xs :: splitNl ys := by
  induction xs with
  | nil => simp [splitNl]
  | cons c cs ih =>
    have hc : ¬c = '\n' := fun hcc => h (by simp [hcc])
    have h2 : '\n' ∉ cs := fun hm => h (List.mem_cons_of_mem _ hm)
    simp [splitNl, hc, ih h2]

theorem splitNl_append_exists (xs ys : List Char) :
    ∃ p ps, splitNl (xs ++ '\n' :: ys) = (p :: ps) ++ splitNl ys := by
  induction xs with
  | nil => exact ⟨[], [], by simp [splitNl]⟩
  | cons c cs ih =>
    obtain ⟨p, ps, hp⟩ := ih
    by_cases hc : c = '\n'
    · subst hc
      exact ⟨[], p :: ps, by simp [splitNl, hp]⟩
    · exact ⟨c :: p, ps, by simp [splitNl, hc, hp]⟩

/-- Membership of a newline-free segment that is delimited by literal
newlines inside the split list. -/
theorem mem_splitNl_of_delimited (xs zs ys : List Char) (h : '\n' ∉ zs) :
    zs ∈ splitNl (xs ++ '\n' :: (zs ++ '\n' :: ys)) := by
  obtain ⟨p, ps, hp⟩ := splitNl_append_exists xs (zs ++ '\n' :: ys)
  rw [hp, splitNl_append_newline ys h]
  simp

theorem mem_splitNl_of_head (zs ys : List Char) (h : '\n' ∉ zs) :
    zs ∈ splitNl (zs ++ '\n' :: ys) := by
  rw [splitNl_append_newline ys h]
  simp

/-! ## Row height (source lines 62–66) -/

/-- `const rowHeight = 28` of the source. -/
def rowHeight : Nat := 28

/-- `const cellPad = 6` of the source. -/
def cellPad : Nat := 6

/-- `Math.max(rowHeight, cellPad * 2 + lineCount * 14)` where
`lineCount = value.split('\n').length`. -/
def rowHeightOf (value : String) : Nat :=
  max rowHeight (cellPad * 2 + (splitNl value.data).length * 14)

/-- Number of explicit line-break characters in a value. -/
def newlineCount (value : String) : Nat := value.data.count '\n'

/-- C2: the computed row height equals
`max(28, 6*2 + lineCount*14)` with `lineCount = newlines + 1`; it is
monotone in the newline count, never below 28, and a function of the
newline count only. -/
theorem c2_row_height :
    (∀ v : String,
      rowHeightOf v = max 28 (6 * 2 + (newlineCount v + 1) * 14))
    ∧ (∀ v1 v2 : String, newlineCount v1 ≤ newlineCount v2 →
        rowHeightOf v1 ≤ rowHeightOf v2)
    ∧ (∀ v : String, 28 ≤ rowHeightOf v)
    ∧ (∀ v1 v2 : String, newlineCount v1 = newlineCount v2 →
        rowHeightOf v1 = rowHeightOf v2) := by
  have hform : ∀ v : String,
      rowHeightOf v = max 28 (6 * 2 + (newlineCount v + 1) * 14) := by
    intro v
    simp [rowHeightOf, rowHeight, cellPad, length_splitNl, newlineCount]
  refine ⟨hform, ?_, ?_, ?_⟩
  · intro v1 v2 h
    rw [hform v1, hform v2]
    exact max_le_max (le_refl 28) (by omega)
  · intro v
    rw [hform v]
    exact le_max_left _ _
  · intro v1 v2 h
    rw [hform v1, hform v2, h]

/-- Witness for C2 at concrete values: "a" has no newline and height 28,
"a\nb\nc" has two newlines and height 54. -/
theorem c2_row_height_witness :
    rowHeightOf "a" = max 28 (6 * 2 + (newlineCount "a" + 1) * 14)
    ∧ rowHeightOf "a" ≤ rowHeightOf ("a" ++ "\n" ++ "b" ++ "\n" ++ "c") :=
  ⟨c2_row_height.1 "a",
   c2_row_height.2.1 "a" ("a" ++ "\n" ++ "b" ++ "\n" ++ "c") (by decide)⟩

/-! ## Amount formatting (source lines 6–8) -/

/-- Rounding half away from zero, the default rounding of
`Intl.NumberFormat`; computed on a rational via its numerator and
denominator. -/
def roundHalfExpand (q : ℚ) : Int :=
  if 0 ≤ q.num then (2 * q.num + q.den) / (2 * q.den)
  else -((2 * (-q.num) + q.den) / (2 * q.den))

/-- Groups a least-significant-first digit list in threes with the
es-ES thousands separator. -/
def groupAux : List Char → List Char
  | a :: b :: c :: d :: rest => a :: b :: c :: '.' :: groupAux (d :: rest)
  | l => l

/-- Decimal representation of a natural number with "." thousands
separators (es-ES grouping). -/
def groupThousands (n : Nat) : String :=
  String.mk (groupAux (Nat.toDigits 10 n).reverse).reverse

/-- Two-digit rendering of a fraction part below 100. -/
def padTwo (n : Nat) : String :=
  if n < 10 then String.mk ('0' :: Nat.toDigits 10 n)
  else String.mk (Nat.toDigits 10 n)

/-- Modelled from the spec: `fmt` wraps the platform builtin
`Intl.NumberFormat('es-ES', { minimumFractionDigits: 2,
maximumFractionDigits: 2 }).format`, whose implementation is not part of
this repository.  The spec fixes its interface: exactly two fraction
digits, "," as decimal separator, "." as thousands separator. -/
def fmt (q : ℚ) : String :=
  let c : Int := roundHalfExpand (q * 100)
  let a : Nat := c.natAbs
  (if c < 0 then "-" else "") ++ groupThousands (a / 100) ++ "," ++ padTwo (a % 100)

/-! ## The request record and validation (source lines 122–131) -/

/-- The inbound request body `d = req.body`: every key the module reads.
A key absent from the submitted JSON reads as `undefined`. -/
structure Req where
  ref : JsVal
  date : JsVal
  amount : JsVal
  currency : JsVal
  beneficiario : JsVal
  dirBeneficiario : JsVal
  bancoBeneficiario : JsVal
  swiftBeneficiario : JsVal
  ibanBeneficiario : JsVal
  submitterName : JsVal
  submitterEmail : JsVal
  bancoIntermediario : JsVal
  ciudadIntermediario : JsVal
  swiftIntermediario : JsVal
  aba : JsVal
  dirBanco : JsVal
  referencia : JsVal
deriving DecidableEq, Repr

/-- Dynamic property access `d[field]` as used by the validation loop;
an unknown key reads as `undefined`. -/
def Req.get (d : Req) : String → JsVal
  | "ref" => d.ref
  | "date" => d.date
  | "amount" => d.amount
  | "currency" => d.currency
  | "beneficiario" => d.beneficiario
  | "dirBeneficiario" => d.dirBeneficiario
  | "bancoBeneficiario" => d.bancoBeneficiario
  | "swiftBeneficiario" => d.swiftBeneficiario
  | "ibanBeneficiario" => d.ibanBeneficiario
  | "submitterName" => d.submitterName
  | "submitterEmail" => d.submitterEmail
  | "bancoIntermediario" => d.bancoIntermediario
  | "ciudadIntermediario" => d.ciudadIntermediario
  | "swiftIntermediario" => d.swiftIntermediario
  | "aba" => d.aba
  | "dirBanco" => d.dirBanco
  | "referencia" => d.referencia
  | _ => JsVal.undef

/-- The `required` list of the handler, in source order. -/
def required : List String :=
  ["amount", "currency", "beneficiario", "dirBeneficiario",
   "bancoBeneficiario", "swiftBeneficiario", "ibanBeneficiario",
   "submitterName", "submitterEmail"]

/-- The validation loop: the first required field whose value is falsy,
if any (`for (const field of required) if (!d[field]) return ...`). -/
def firstMissing (d : Req) : Option String :=
  required.find? (fun f => !truthy (d.get f))

/-! ## Table rows (source lines 42–58) -/

/-- The composite "Cuenta del beneficiario" value: seven labelled
sub-lines joined by explicit newlines, in source order. -/
def compositeValue (d : Req) : String :=
  "Banco Intermediario: " ++ jsToString d.bancoIntermediario ++ "\n" ++
  "Ciudad: " ++ jsToString d.ciudadIntermediario ++ "\n" ++
  "Swift Code: " ++ jsToString d.swiftIntermediario ++ "\n" ++
  "ABA: " ++ jsToString d.aba ++ "\n" ++
  "Banco Beneficiario: " ++ jsToString d.bancoBeneficiario ++ "\n" ++
  "Swift code: " ++ jsToString d.swiftBeneficiario ++ "\n" ++
  "Beneficiario Final: " ++ jsToString d.ibanBeneficiario

/-- The `rows` array of `generatePDF`, in source order. -/
def rowsOf (d : Req) : List (String × String) :=
  [("Ordenante", "Verdi Square Asset Management SL"),
   ("Cuenta del ordenante", "ES63 0128 0892 5701 0005 3572"),
   ("Importe y divisa", fmt (toNum d.amount) ++ " " ++ jsToString d.currency),
   ("Beneficiario", jsToString d.beneficiario),
   ("Cuenta del beneficiario", compositeValue d),
   ("Dirección completa del beneficiario", jsToString d.dirBeneficiario),
   ("Dirección completa del banco del beneficiario", jsToString d.dirBanco)]

theorem roundHalfExpand_1234_5 :
    roundHalfExpand ((1234.5 : ℚ) * 100) = 123450 := by
  have h : (1234.5 : ℚ) * 100 = (123450 : ℚ) := by norm_num
  rw [h]
  unfold roundHalfExpand
  norm_num [Rat.num_ofNat, Rat.den_ofNat]

theorem fmt_1234_5 : fmt (1234.5 : ℚ) = "1.234,50" := by
  simp only [fmt, roundHalfExpand_1234_5]
  decide

/-- C8: `fmt(1234.5)` renders as "1.234,50" in the fixed es-ES locale,
and the "Importe y divisa" row's value for amount 1234.5 and currency
"USD" is "1.234,50 USD". -/
theorem c8_amount_formatting :
    fmt (1234.5 : ℚ) = "1.234,50"
    ∧ ∀ d : Req, d.amount = .vnum (1234.5 : ℚ) → d.currency = .vstr "USD" →
        (rowsOf d).get? 2 = some ("Importe y divisa", "1.234,50 USD") := by
  refine ⟨fmt_1234_5, ?_⟩
  intro d ha hc
  simp [rowsOf, toNum, jsToString, ha, hc, fmt_1234_5]

/-- Witness for C8 at a concrete request record. -/
theorem c8_amount_formatting_witness :
    (rowsOf
      { ref := .undef, date := .undef, amount := .vnum (1234.5 : ℚ),
        currency := .vstr "USD", beneficiario := .undef,
        dirBeneficiario := .undef, bancoBeneficiario := .undef,
        swiftBeneficiario := .undef, ibanBeneficiario := .undef,
        submitterName := .undef, submitterEmail := .undef,
        bancoIntermediario := .undef, ciudadIntermediario := .undef,
        swiftIntermediario := .undef, aba := .undef, dirBanco := .undef,
        referencia := .undef }).get? 2 =
      some ("Importe y divisa", "1.234,50 USD") :=
  c8_amount_formatting.2 _ rfl rfl

/-! ## The composite "Cuenta del beneficiario" cell (C4, C10) -/

theorem str_data_append (a b : String) : (a ++ b).data = a.data ++ b.data := rfl

theorem str_data_nl : String.data "\n" = ['\n'] := rfl

/-- The character stream of the composite value, grouped line by line. -/
theorem compositeValue_data (d : Req) :
    (compositeValue d).data =
      "Banco Intermediario: ".data ++ ((jsToString d.bancoIntermediario).data
      ++ '\n' :: ("Ciudad: ".data ++ ((jsToString d.ciudadIntermediario).data
      ++ '\n' :: ("Swift Code: ".data ++ ((jsToString d.swiftIntermediario).data
      ++ '\n' :: ("ABA: ".data ++ ((jsToString d.aba).data
      ++ '\n' :: ("Banco Beneficiario: ".data ++ ((jsToString d.bancoBeneficiario).data
      ++ '\n' :: ("Swift code: ".data ++ ((jsToString d.swiftBeneficiario).data
      ++ '\n' :: ("Beneficiario Final: ".data
      ++ (jsToString d.ibanBeneficiario).data)))))))))))) := by
  simp [compositeValue, str_data_append, str_data_nl, List.append_assoc]

/-- A labelled line whose label and content are newline-free, followed by
a literal newline, is split off as one line. -/
theorem splitNl_label_line (lab s rest : List Char)
    (hlab : '\n' ∉ lab) (hs : '\n' ∉ s) :
    splitNl (lab ++ (s ++ '\n' :: rest)) = (lab ++ s) :: splitNl rest := by
  rw [← List.append_assoc]
  exact splitNl_append_newline rest
    (fun hm => (List.mem_append.1 hm).elim (fun h => hlab h) (fun h => hs h))

/-- Counterexample to C4 as stated: all seven sub-fields are strings
(`bancoIntermediario = "A\nB"`, the others empty), yet the composite value
splits into eight lines, not seven. -/
theorem c4_composite_seven_lines_cex :
    (splitNl (compositeValue
      { ref := .undef, date := .undef, amount := .undef, currency := .undef,
        beneficiario := .undef, dirBeneficiario := .undef,
        bancoBeneficiario := .vstr "", swiftBeneficiario := .vstr "",
        ibanBeneficiario := .vstr "", submitterName := .undef,
        submitterEmail := .undef, bancoIntermediario := .vstr "A\nB",
        ciudadIntermediario := .vstr "", swiftIntermediario := .vstr "",
        aba := .vstr "", dirBanco := .undef,
        referencia := .undef }).data).length = 8 ∧ (8 : Nat) ≠ 7 := by
  constructor
  · decide
  · decide

/-- C4 (amended): for every request whose seven sub-fields are strings
containing no explicit line break (any of them may be the empty string),
the "Cuenta del beneficiario" row's value splits into exactly the seven
labelled lines, in the fixed order. -/
theorem c4_composite_seven_lines (d : Req) (s1 s2 s3 s4 s5 s6 s7 : String)
    (h1 : d.bancoIntermediario = .vstr s1)
    (h2 : d.ciudadIntermediario = .vstr s2)
    (h3 : d.swiftIntermediario = .vstr s3)
    (h4 : d.aba = .vstr s4)
    (h5 : d.bancoBeneficiario = .vstr s5)
    (h6 : d.swiftBeneficiario = .vstr s6)
    (h7 : d.ibanBeneficiario = .vstr s7)
    (n1 : '\n' ∉ s1.data) (n2 : '\n' ∉ s2.data) (n3 : '\n' ∉ s3.data)
    (n4 : '\n' ∉ s4.data) (n5 : '\n' ∉ s5.data) (n6 : '\n' ∉ s6.data)
    (n7 : '\n' ∉ s7.data) :
    (rowsOf d).get? 4 = some ("Cuenta del beneficiario", compositeValue d)
    ∧ splitNl (compositeValue d).data =
      [("Banco Intermediario: " ++ s1).data,
       ("Ciudad: " ++ s2).data,
       ("Swift Code: " ++ s3).data,
       ("ABA: " ++ s4).data,
       ("Banco Beneficiario: " ++ s5).data,
       ("Swift code: " ++ s6).data,
       ("Beneficiario Final: " ++ s7).data]
    ∧ (splitNl (compositeValue d).data).length = 7 := by
  have hsplit : splitNl (compositeValue d).data =
      [("Banco Intermediario: " ++ s1).data,
       ("Ciudad: " ++ s2).data,
       ("Swift Code: " ++ s3).data,
       ("ABA: " ++ s4).data,
       ("Banco Beneficiario: " ++ s5).data,
       ("Swift code: " ++ s6).data,
       ("Beneficiario Final: " ++ s7).data] := by
    rw [compositeValue_data, h1, h2, h3, h4, h5, h6, h7]
    simp only [jsToString]
    rw [splitNl_label_line _ _ _ (by decide) n1]
    rw [splitNl_label_line _ _ _ (by decide) n2]
    rw [splitNl_label_line _ _ _ (by decide) n3]
    rw [splitNl_label_line _ _ _ (by decide) n4]
    rw [splitNl_label_line _ _ _ (by decide) n5]
    rw [splitNl_label_line _ _ _ (by decide) n6]
    rw [splitNl_no_newline
      (fun hm => (List.mem_append.1 hm).elim (fun h => by revert h; decide)
        (fun h => n7 h))]
    simp [str_data_append]
  exact ⟨by simp [rowsOf], hsplit, by simp [hsplit]⟩

/-- Witness for the amended C4 at a concrete record with a mix of empty
and non-empty sub-fields. -/
theorem c4_composite_seven_lines_witness :
    splitNl (compositeValue
      { ref := .undef, date := .undef, amount := .undef, currency := .undef,
        beneficiario := .undef, dirBeneficiario := .undef,
        bancoBeneficiario := .vstr "BBVA", swiftBeneficiario := .vstr "",
        ibanBeneficiario := .vstr "ES12", submitterName := .undef,
        submitterEmail := .undef, bancoIntermediario := .vstr "",
        ciudadIntermediario := .vstr "Madrid", swiftIntermediario := .vstr "",
        aba := .vstr "026009593", dirBanco := .undef,
        referencia := .undef }).data =
      [("Banco Intermediario: " ++ "").data,
       ("Ciudad: " ++ "Madrid").data,
       ("Swift Code: " ++ "").data,
       ("ABA: " ++ "026009593").data,
       ("Banco Beneficiario: " ++ "BBVA").data,
       ("Swift code: " ++ "").data,
       ("Beneficiario Final: " ++ "ES12").data] :=
  (c4_composite_seven_lines _ "" "Madrid" "" "026009593" "BBVA" "" "ES12"
    rfl rfl rfl rfl rfl rfl rfl
    (by decide) (by decide) (by decide) (by decide) (by decide) (by decide)
    (by decide)).2.1


/-- The first sub-line of the composite cell, as the source concatenates
it. -/
def lineBanco (d : Req) : List Char :=
  "Banco Intermediario: ".data ++ (jsToString d.bancoIntermediario).data

/-- The second sub-line of the composite cell. -/
def lineCiudad (d : Req) : List Char :=
  "Ciudad: ".data ++ (jsToString d.ciudadIntermediario).data

/-- The third sub-line of the composite cell. -/
def lineSwiftI (d : Req) : List Char :=
  "Swift Code: ".data ++ (jsToString d.swiftIntermediario).data

/-- The fourth sub-line of the composite cell. -/
def lineAba (d : Req) : List Char :=
  "ABA: ".data ++ (jsToString d.aba).data

/-- The fifth sub-line of the composite cell. -/
def lineBancoB (d : Req) : List Char :=
  "Banco Beneficiario: ".data ++ (jsToString d.bancoBeneficiario).data

/-- The sixth sub-line of the composite cell. -/
def lineSwiftB (d : Req) : List Char :=
  "Swift code: ".data ++ (jsToString d.swiftBeneficiario).data

/-- The seventh sub-line of the composite cell. -/
def lineFinal (d : Req) : List Char :=
  "Beneficiario Final: ".data ++ (jsToString d.ibanBeneficiario).data

/-- The composite value's characters, grouped into the seven sub-lines
joined by literal newlines. -/
theorem compositeValue_data_lines (d : Req) :
    (compositeValue d).data =
      lineBanco d ++ '\n' :: (lineCiudad d ++ '\n' :: (lineSwiftI d
        ++ '\n' :: (lineAba d ++ '\n' :: (lineBancoB d
        ++ '\n' :: (lineSwiftB d ++ '\n' :: lineFinal d))))) := by
  rw [compositeValue_data]
  simp [lineBanco, lineCiudad, lineSwiftI, lineAba, lineBancoB, lineSwiftB,
    lineFinal, List.append_assoc]

theorem append_nl_assoc (a b t : List Char) :
    a ++ '\n' :: (b ++ '\n' :: t) = (a ++ '\n' :: b) ++ '\n' :: t := by
  simp

/-- C10: the intermediary-bank keys are not in the required list, and when
such a key is absent (reads as `undefined`), the composite "Cuenta del
beneficiario" value still contains its labelled line, with the literal
text "undefined" after the label. -/
theorem c10_intermediary_undefined (d : Req) :
    ("bancoIntermediario" ∉ required ∧ "ciudadIntermediario" ∉ required
      ∧ "swiftIntermediario" ∉ required ∧ "aba" ∉ required)
    ∧ (d.bancoIntermediario = .undef →
        ("Banco Intermediario: undefined").data ∈
          splitNl (compositeValue d).data)
    ∧ (d.ciudadIntermediario = .undef →
        ("Ciudad: undefined").data ∈ splitNl (compositeValue d).data)
    ∧ (d.swiftIntermediario = .undef →
        ("Swift Code: undefined").data ∈ splitNl (compositeValue d).data)
    ∧ (d.aba = .undef →
        ("ABA: undefined").data ∈ splitNl (compositeValue d).data) := by
  refine ⟨⟨by decide, by decide, by decide, by decide⟩, ?_, ?_, ?_, ?_⟩
  · intro hb
    have hl : lineBanco d = ("Banco Intermediario: undefined").data := by
      simp only [lineBanco, hb, jsToString]
      decide
    rw [← hl, compositeValue_data_lines]
    exact mem_splitNl_of_head _ _ (by rw [hl]; decide)
  · intro hc
    have hl : lineCiudad d = ("Ciudad: undefined").data := by
      simp only [lineCiudad, hc, jsToString]
      decide
    rw [← hl, compositeValue_data_lines]
    exact mem_splitNl_of_delimited _ _ _ (by rw [hl]; decide)
  · intro hs
    have hl : lineSwiftI d = ("Swift Code: undefined").data := by
      simp only [lineSwiftI, hs, jsToString]
      decide
    rw [← hl, compositeValue_data_lines, append_nl_assoc]
    exact mem_splitNl_of_delimited _ _ _ (by rw [hl]; decide)
  · intro ha
    have hl : lineAba d = ("ABA: undefined").data := by
      simp only [lineAba, ha, jsToString]
      decide
    rw [← hl, compositeValue_data_lines, append_nl_assoc, append_nl_assoc]
    exact mem_splitNl_of_delimited _ _ _ (by rw [hl]; decide)

/-- Witness for C10 at a concrete record in which all four
intermediary-bank keys are absent. -/
theorem c10_intermediary_undefined_witness :
    ("ABA: undefined").data ∈ splitNl (compositeValue
      { ref := .undef, date := .undef, amount := .undef, currency := .undef,
        beneficiario := .undef, dirBeneficiario := .undef,
        bancoBeneficiario := .vstr "BBVA", swiftBeneficiario := .vstr "BBVAESMM",
        ibanBeneficiario := .vstr "ES12", submitterName := .undef,
        submitterEmail := .undef, bancoIntermediario := .undef,
        ciudadIntermediario := .undef, swiftIntermediario := .undef,
        aba := .undef, dirBanco := .undef, referencia := .undef }).data :=
  (c10_intermediary_undefined _).2.2.2.2 rfl

/-! ## The table layout engine (source lines 37–93) -/

/-- `const pageWidth = 595 - 144` (A4 width minus margins). -/
def pageWidth : Nat := 595 - 144

/-- `const colLeft = 72`. -/
def colLeft : Nat := 72

/-- `const col1Width = 200`. -/
def col1Width : Nat := 200

/-- `const col2Width = pageWidth - col1Width`. -/
def col2Width : Nat := pageWidth - col1Width

/-- An abstract drawing command issued to the document engine (pdfkit
calls, in issue order). -/
inductive Cmd where
  | setFont (font : String) (size : Nat)
  | textFlow (s : String) (align : Option String) (lineGap : Option Nat)
  | textAt (s : String) (x y w lineGap : Nat)
  | moveDown (n : ℚ)
  | rect (x y w h : Nat)
  | addPage
  | setY (y : Nat)
  | endDoc
deriving DecidableEq, Repr

/-- The mutable layout state of the row loop: number of page breaks taken
so far, and the vertical cursor `y`. -/
structure LayoutState where
  page : Nat
  y : Nat
deriving DecidableEq, Repr

/-- The six engine calls that paint one row at vertical position `y`
(two `rect`+`stroke`, then label and value text at fixed padding). -/
def cellCmds (row : String × String) (y rh : Nat) : List Cmd :=
  [Cmd.rect colLeft y col1Width rh,
   Cmd.rect (colLeft + col1Width) y col2Width rh,
   Cmd.setFont "Helvetica" 10,
   Cmd.textAt row.1 (colLeft + cellPad) (y + cellPad) (col1Width - cellPad * 2) 2,
   Cmd.setFont "Helvetica" 10,
   Cmd.textAt row.2 (colLeft + col1Width + cellPad) (y + cellPad)
     (col2Width - cellPad * 2) 2]

/-- One iteration of the `rows.forEach` body: compute the row height,
`if (y + rh > 750) { doc.addPage(); y = 72; }`, draw the cells, then
`y += rh`. -/
def drawRow (st : LayoutState) (row : String × String) :
    List Cmd × LayoutState :=
  let rh := rowHeightOf row.2
  let st1 : LayoutState := if st.y + rh > 750 then ⟨st.page + 1, 72⟩ else st
  ((if st.y + rh > 750 then [Cmd.addPage] else []) ++ cellCmds row st1.y rh,
   ⟨st1.page, st1.y + rh⟩)

/-- The whole `rows.forEach` loop. -/
def drawRows : LayoutState → List (String × String) → List Cmd × LayoutState
  | st, [] => ([], st)
  | st, r :: rs =>
    ((drawRow st r).1 ++ (drawRows (drawRow st r).2 rs).1,
     (drawRows (drawRow st r).2 rs).2)

/-- The row step as C1 words it: before drawing, if the cursor plus the
row's computed height strictly exceeds the bottom boundary 750, start a
new page and reset the cursor to the top margin 72, then draw the row in
full there (with no further check that it fits); otherwise draw the row
at the current cursor; in both cases advance the cursor by exactly the
row height. -/
def specRowStep (st : LayoutState) (row : String × String) :
    List Cmd × LayoutState :=
  let h := rowHeightOf row.2
  if st.y + h > 750 then
    (Cmd.addPage :: cellCmds row 72 h, ⟨st.page + 1, 72 + h⟩)
  else
    (cellCmds row st.y h, ⟨st.page, st.y + h⟩)

/-- C1: the source's row loop implements exactly the step described by the
claim: one page break and a cursor reset to 72 when the row would cross
750, the row then drawn once, in full, at the (possibly reset) cursor,
and the cursor advanced by exactly the row height — with no check that a
single row fits on a fresh page. -/
theorem c1_pagination :
    (∀ (st : LayoutState) (row : String × String),
      drawRow st row = specRowStep st row)
    ∧ (∀ (st : LayoutState) (r : String × String)
        (rs : List (String × String)),
        drawRows st (r :: rs) =
          ((specRowStep st r).1 ++ (drawRows (specRowStep st r).2 rs).1,
           (drawRows (specRowStep st r).2 rs).2))
    ∧ (∀ (st : LayoutState) (row : String × String),
        st.y + rowHeightOf row.2 > 750 →
          (drawRow st row).2 = ⟨st.page + 1, 72 + rowHeightOf row.2⟩)
    ∧ (∀ (st : LayoutState) (row : String × String),
        ¬st.y + rowHeightOf row.2 > 750 →
          (drawRow st row).2 = ⟨st.page, st.y + rowHeightOf row.2⟩) := by
  have hstep : ∀ (st : LayoutState) (row : String × String),
      drawRow st row = specRowStep st row := by
    intro st row
    by_cases h : st.y + rowHeightOf row.2 > 750
    · simp [drawRow, specRowStep, h]
    · simp [drawRow, specRowStep, h]
  refine ⟨hstep, ?_, ?_, ?_⟩
  · intro st r rs
    simp [drawRows, hstep st r]
  · intro st row h
    simp [drawRow, h]
  · intro st row h
    simp [drawRow, h]

/-- The full `generatePDF` drawing sequence: date line, salutation and
body paragraph, the table loop, `doc.y = y + 24`, closing prose,
signature block, `doc.end()`.  `y0` is the engine's flowing-text cursor
position when the table starts (the engine lays out the fixed prose
deterministically; the value is not computed by this module). -/
def renderCmds (y0 : Nat) (d : Req) : List Cmd :=
  [Cmd.setFont "Helvetica" 11,
   Cmd.textFlow (jsToString d.date) (some "right") none,
   Cmd.moveDown 2,
   Cmd.textFlow "Estimados Srs:" (some "left") none,
   Cmd.moveDown 1,
   Cmd.textFlow "Por medio de la presente les solicito que por favor gestionen una transferencia bancaria según los siguientes datos:" (some "left") (some 2),
   Cmd.moveDown ((3 : ℚ) / 2)]
  ++ (drawRows ⟨0, y0⟩ (rowsOf d)).1
  ++ [Cmd.setY ((drawRows ⟨0, y0⟩ (rowsOf d)).2.y + 24),
      Cmd.setFont "Helvetica" 11,
      Cmd.textFlow "Agradecemos que esta transferencia se gestione lo más rápido posible." none (some 2),
      Cmd.textFlow "Cualquier cosa, por favor no duden en avisar." none none,
      Cmd.textFlow "Muchas gracias," none none,
      Cmd.moveDown 3,
      Cmd.textFlow "_________________________________" none none,
      Cmd.moveDown ((3 : ℚ) / 10),
      Cmd.textFlow "Administrador Único" none none,
      Cmd.textFlow "Verdi Square Asset Management" none none,
      Cmd.endDoc]

/-- The request fields `generatePDF` reads: the caller-supplied date and
the table inputs.  No clock, no randomness, and no other field reaches
the renderer. -/
def usedFields (d : Req) : List JsVal :=
  [d.date, d.amount, d.currency, d.beneficiario, d.bancoIntermediario,
   d.ciudadIntermediario, d.swiftIntermediario, d.aba, d.bancoBeneficiario,
   d.swiftBeneficiario, d.ibanBeneficiario, d.dirBeneficiario, d.dirBanco]

/-- C3: the rendered command stream is a function of the request's used
fields alone (given the engine's deterministic prose cursor `y0`): two
requests that agree on them — in particular, the same request twice —
render to identical output. -/
theorem c3_determinism (y0 : Nat) (d1 d2 : Req)
    (h : usedFields d1 = usedFields d2) :
    renderCmds y0 d1 = renderCmds y0 d2 := by
  simp only [usedFields, List.cons.injEq, and_true] at h
  obtain ⟨h1, h2, h3, h4, h5, h6, h7, h8, h9, h10, h11, h12, h13⟩ := h
  simp [renderCmds, rowsOf, compositeValue,
    h1, h2, h3, h4, h5, h6, h7, h8, h9, h10, h11, h12, h13]

/-- Witness for C3: two concrete requests differing only in a field the
renderer does not read (`submitterName`) produce identical command
streams. -/
theorem c3_determinism_witness :
    renderCmds 200
      { ref := .vstr "R1", date := .vstr "2026-10-12",
        amount := .vnum (50000 : ℚ), currency := .vstr "USD",
        beneficiario := .vstr "ACME Corp", dirBeneficiario := .vstr "1 Main St",
        bancoBeneficiario := .vstr "BBVA", swiftBeneficiario := .vstr "BBVAESMM",
        ibanBeneficiario := .vstr "ES12", submitterName := .vstr "Alice",
        submitterEmail := .vstr "a@example.com", bancoIntermediario := .undef,
        ciudadIntermediario := .undef, swiftIntermediario := .undef,
        aba := .undef, dirBanco := .vstr "Plaza Mayor 1",
        referencia := .undef } =
    renderCmds 200
      { ref := .vstr "R1", date := .vstr "2026-10-12",
        amount := .vnum (50000 : ℚ), currency := .vstr "USD",
        beneficiario := .vstr "ACME Corp", dirBeneficiario := .vstr "1 Main St",
        bancoBeneficiario := .vstr "BBVA", swiftBeneficiario := .vstr "BBVAESMM",
        ibanBeneficiario := .vstr "ES12", submitterName := .vstr "Bob",
        submitterEmail := .vstr "a@example.com", bancoIntermediario := .undef,
        ciudadIntermediario := .undef, swiftIntermediario := .undef,
        aba := .undef, dirBanco := .vstr "Plaza Mayor 1",
        referencia := .undef } :=
  c3_determinism 200 _ _ rfl

/-! ## The document stream promise (source lines 11–17) -/

/-- An event emitted by the document engine's output stream. -/
inductive PdfEvent where
  | data (chunk : List Nat)
  | fin
  | err (e : String)
deriving DecidableEq, Repr

/-- The promise wiring of `generatePDF`: chunks accumulate on 'data', the
first 'end' resolves with the concatenation of all chunks, the first
'error' rejects with the engine's error; `none` means the promise never
settles.  A promise settles once, so later events are ignored. -/
def settle : List PdfEvent → List (List Nat) → Option (Except String (List Nat))
  | [], _ => none
  | .data c :: es, acc => settle es (acc ++ [c])
  | .fin :: _, acc => some (.ok acc.flatten)
  | .err e :: _, _ => some (.error e)

/-- The outcome of `generatePDF` on a given engine event sequence. -/
def generatePDFResult (events : List PdfEvent) :
    Option (Except String (List Nat)) :=
  settle events []

theorem settle_error (e : String) (rest : List PdfEvent) :
    ∀ (pre : List PdfEvent), (∀ x ∈ pre, ∃ c, x = PdfEvent.data c) →
      ∀ acc, settle (pre ++ PdfEvent.err e :: rest) acc = some (.error e) := by
  intro pre
  induction pre with
  | nil => intro _ acc; simp [settle]
  | cons x xs ih =>
    intro h acc
    obtain ⟨c, hc⟩ := h x (by simp)
    subst hc
    simp only [List.cons_append, settle]
    exact ih (fun z hz => h z (by simp [hz])) (acc ++ [c])

/-! ## The HTTP handler and email dispatch (source lines 112–178) -/

/-- The base64 alphabet. -/
def base64Chars : List Char :=
  "ABCDEFGHIJKLMNOPQRSTUVWXYZabcdefghijklmnopqrstuvwxyz0123456789+/".data

/-- Character of a 6-bit group. -/
def b64c (n : Nat) : Char := base64Chars.getD n 'A'

/-- Standard base64 of a byte list (`pdfBuffer.toString('base64')`). -/
def base64 : List Nat → List Char
  | [] => []
  | [a] => [b64c (a / 4), b64c (a % 4 * 16), '=', '=']
  | [a, b] => [b64c (a / 4), b64c (a % 4 * 16 + b / 16), b64c (b % 16 * 4), '=']
  | a :: b :: c :: rest =>
    b64c (a / 4) :: b64c (a % 4 * 16 + b / 16) ::
      b64c (b % 16 * 4 + c / 64) :: b64c (c % 64) :: base64 rest

/-- The payload handed to `resend.emails.send`. -/
structure Email where
  sender : String
  recipient : String
  subject : String
  htmlBody : String
  filename : String
  content : String
deriving DecidableEq, Repr

/-- The HTML summary body, with the summary fields interpolated verbatim
(no escaping), as in the source template literal. -/
def emailHtml (d : Req) : String :=
  "\n        <div style=\"font-family:Arial,sans-serif;max-width:600px;color:#333;\">\n          <h2 style=\"color:#1a1a2e;border-bottom:2px solid #c9a84c;padding-bottom:8px;\">\n            Wire Transfer Request\n          </h2>\n          <table style=\"width:100%;border-collapse:collapse;margin:16px 0;font-size:14px;\">\n            <tr><td style=\"padding:8px;color:#888;width:40%;\">Reference</td><td style=\"padding:8px;font-weight:bold;\">"
  ++ jsToString d.ref
  ++ "</td></tr>\n            <tr style=\"background:#faf9f7;\"><td style=\"padding:8px;color:#888;\">Submitted by</td><td style=\"padding:8px;\">"
  ++ jsToString d.submitterName ++ " (" ++ jsToString d.submitterEmail
  ++ ")</td></tr>\n            <tr><td style=\"padding:8px;color:#888;\">Amount</td><td style=\"padding:8px;font-weight:bold;\">"
  ++ fmt (toNum d.amount) ++ " " ++ jsToString d.currency
  ++ "</td></tr>\n            <tr style=\"background:#faf9f7;\"><td style=\"padding:8px;color:#888;\">Beneficiario</td><td style=\"padding:8px;\">"
  ++ jsToString d.beneficiario
  ++ "</td></tr>\n            <tr><td style=\"padding:8px;color:#888;\">Bank</td><td style=\"padding:8px;\">"
  ++ jsToString d.bancoBeneficiario
  ++ "</td></tr>\n            <tr style=\"background:#faf9f7;\"><td style=\"padding:8px;color:#888;\">Swift</td><td style=\"padding:8px;\">"
  ++ jsToString d.swiftBeneficiario
  ++ "</td></tr>\n            <tr><td style=\"padding:8px;color:#888;\">IBAN / Account</td><td style=\"padding:8px;\">"
  ++ jsToString d.ibanBeneficiario
  ++ "</td></tr>\n            <tr style=\"background:#faf9f7;\"><td style=\"padding:8px;color:#888;\">Reference/Purpose</td><td style=\"padding:8px;\">"
  ++ (if truthy d.referencia then jsToString d.referencia else "–")
  ++ "</td></tr>\n            <tr><td style=\"padding:8px;color:#888;\">Date</td><td style=\"padding:8px;\">"
  ++ jsToString d.date
  ++ "</td></tr>\n          </table>\n          <p style=\"font-size:12px;color:#aaa;\">PDF attached — ready to sign and forward to BankInter.</p>\n        </div>\n      "

/-- The email built from the request and the rendered bytes: subject and
attachment filename interpolate `d.ref` via string coercion; the
attachment content is the base64 of the PDF bytes. -/
def mkEmail (d : Req) (buf : List Nat) : Email :=
  { sender := "Wire Requests <noreply@onix-cp.com>",
    recipient := "mk@onix-cp.com",
    subject := "Wire Transfer Request " ++ jsToString d.ref ++ " – "
      ++ jsToString d.beneficiario ++ " – " ++ fmt (toNum d.amount) ++ " "
      ++ jsToString d.currency,
    htmlBody := emailHtml d,
    filename := "Wire_Transfer_" ++ jsToString d.ref ++ ".pdf",
    content := String.mk (base64 buf) }

/-- A JSON response body the handler can produce: an error object or the
success acknowledgment carrying the reference id. -/
inductive RespBody where
  | jerror (msg : String)
  | jsuccess (ref : JsVal)
deriving DecidableEq, Repr

/-- The observable outcome of one handler invocation: HTTP status, JSON
body, and the email payload handed to the dispatch channel (if any). -/
structure HandlerResult where
  status : Nat
  body : RespBody
  dispatched : Option Email
deriving DecidableEq, Repr

/-- The POST path of the handler, parametrised by the outcome of the PDF
generation promise and by the dispatch channel: validate, render,
dispatch, acknowledge; any thrown error is caught and returned as a 500
with the error's message. -/
def handler (d : Req) (render : Except String (List Nat))
    (send : Email → Except String Unit) : HandlerResult :=
  match firstMissing d with
  | some f => ⟨400, .jerror ("Missing field: " ++ f), none⟩
  | none =>
    match render with
    | .error e => ⟨500, .jerror e, none⟩
    | .ok buf =>
      match send (mkEmail d buf) with
      | .error e => ⟨500, .jerror e, some (mkEmail d buf)⟩
      | .ok _ => ⟨200, .jsuccess d.ref, some (mkEmail d buf)⟩

theorem find?_append_first {α} (p : α → Bool) (post : List α) (f : α)
    (hf : p f = true) :
    ∀ pre : List α, (∀ g ∈ pre, p g = false) →
      List.find? p (pre ++ f :: post) = some f := by
  intro pre
  induction pre with
  | nil => intro _; simp [List.find?, hf]
  | cons a as ih =>
    intro h
    have ha := h a (by simp)
    simp only [List.cons_append, List.find?, ha]
    exact ih (fun g hg => h g (by simp [hg]))

theorem find?_ext {α} (p q : α → Bool) :
    ∀ l : List α, (∀ x ∈ l, p x = q x) → List.find? p l = List.find? q l := by
  intro l
  induction l with
  | nil => intro _; rfl
  | cons a as ih =>
    intro h
    have ha : p a = q a := h a (by simp)
    cases hq : q a with
    | true => simp [List.find?, ha, hq]
    | false =>
      simp only [List.find?, ha, hq]
      exact ih (fun x hx => h x (by simp [hx]))

/-- C5: when some required field (in the fixed source order) is falsy,
the handler returns 400 naming exactly the first such field, independent
of the render and dispatch outcomes (so neither rendering nor dispatch
is observable), and dispatches nothing; moreover the check depends only
on the truthiness of the required fields, not on their content. -/
theorem c5_validation :
    (∀ (d : Req) (pre post : List String) (f : String),
      required = pre ++ f :: post →
      (∀ g ∈ pre, truthy (d.get g) = true) →
      truthy (d.get f) = false →
      firstMissing d = some f
      ∧ ∀ (render : Except String (List Nat))
          (send : Email → Except String Unit),
          handler d render send =
            ⟨400, .jerror ("Missing field: " ++ f), none⟩)
    ∧ (∀ d1 d2 : Req,
        (∀ g ∈ required, truthy (d1.get g) = truthy (d2.get g)) →
        firstMissing d1 = firstMissing d2) := by
  constructor
  · intro d pre post f hsplit hpre hf
    have hm : firstMissing d = some f := by
      rw [firstMissing, hsplit]
      exact find?_append_first _ post f (by simp [hf]) pre
        (fun g hg => by simp [hpre g hg])
    exact ⟨hm, fun render send => by simp [handler, hm]⟩
  · intro d1 d2 h
    rw [firstMissing, firstMissing]
    exact find?_ext _ _ required (fun x hx => by rw [h x hx])

/-- Witness for C5: a concrete request with a truthy amount and a missing
currency is rejected with "Missing field: currency" and nothing is
dispatched. -/
theorem c5_validation_witness :
    firstMissing
      { ref := .undef, date := .undef, amount := .vnum (50000 : ℚ),
        currency := .undef, beneficiario := .vstr "ACME Corp",
        dirBeneficiario := .vstr "1 Main St", bancoBeneficiario := .vstr "BBVA",
        swiftBeneficiario := .vstr "BBVAESMM", ibanBeneficiario := .vstr "ES12",
        submitterName := .vstr "Alice", submitterEmail := .vstr "a@example.com",
        bancoIntermediario := .undef, ciudadIntermediario := .undef,
        swiftIntermediario := .undef, aba := .undef, dirBanco := .undef,
        referencia := .undef } = some "currency"
    ∧ handler
      { ref := .undef, date := .undef, amount := .vnum (50000 : ℚ),
        currency := .undef, beneficiario := .vstr "ACME Corp",
        dirBeneficiario := .vstr "1 Main St", bancoBeneficiario := .vstr "BBVA",
        swiftBeneficiario := .vstr "BBVAESMM", ibanBeneficiario := .vstr "ES12",
        submitterName := .vstr "Alice", submitterEmail := .vstr "a@example.com",
        bancoIntermediario := .undef, ciudadIntermediario := .undef,
        swiftIntermediario := .undef, aba := .undef, dirBanco := .undef,
        referencia := .undef } (.ok []) (fun _ => .ok ()) =
      ⟨400, .jerror ("Missing field: " ++ "currency"), none⟩ :=
  ⟨(c5_validation.1 _ ["amount"] ["beneficiario", "dirBeneficiario",
      "bancoBeneficiario", "swiftBeneficiario", "ibanBeneficiario",
      "submitterName", "submitterEmail"] "currency" rfl
      (by decide) (by decide)).1,
   (c5_validation.1 _ ["amount"] ["beneficiario", "dirBeneficiario",
      "bancoBeneficiario", "swiftBeneficiario", "ibanBeneficiario",
      "submitterName", "submitterEmail"] "currency" rfl
      (by decide) (by decide)).2 (.ok []) (fun _ => .ok ())⟩

/-- C6: if the engine signals an error before the stream finishes, the
promise rejects with that underlying cause and never resolves with bytes
(no partial output); the handler then responds 500 with the cause's
message and dispatches nothing. -/
theorem c6_render_error :
    (∀ (pre rest : List PdfEvent) (e : String),
      (∀ x ∈ pre, ∃ c, x = PdfEvent.data c) →
      generatePDFResult (pre ++ PdfEvent.err e :: rest) = some (.error e)
      ∧ ∀ b, generatePDFResult (pre ++ PdfEvent.err e :: rest) ≠ some (.ok b))
    ∧ (∀ (d : Req) (e : String) (send : Email → Except String Unit),
        firstMissing d = none →
        handler d (.error e) send = ⟨500, .jerror e, none⟩) := by
  constructor
  · intro pre rest e h
    have hs := settle_error e rest pre h []
    refine ⟨hs, fun b hb => ?_⟩
    rw [generatePDFResult, hs] at hb
    simp at hb
  · intro d e send hv
    simp [handler, hv]

/-- Witness for C6: a stream that emits one chunk and then an error
rejects with the cause and yields no bytes. -/
theorem c6_render_error_witness :
    generatePDFResult
      [PdfEvent.data [1, 2], PdfEvent.err "engine failure", PdfEvent.fin] =
      some (.error "engine failure") :=
  (c6_render_error.1 [PdfEvent.data [1, 2]] [PdfEvent.fin] "engine failure"
    (fun x hx => by
      simp at hx
      exact ⟨[1, 2], hx⟩)).1

/-- C7: a dispatch failure after a successful render yields an overall
500 failure, never the success acknowledgment; on the success path the
rendered bytes appear only as the base64 attachment content, and the
response body carries only the acknowledgment with the reference id. -/
theorem c7_dispatch_failure (d : Req) (buf : List Nat)
    (send : Email → Except String Unit) (hv : firstMissing d = none) :
    (∀ e, send (mkEmail d buf) = .error e →
      handler d (.ok buf) send = ⟨500, .jerror e, some (mkEmail d buf)⟩
      ∧ ∀ r, (handler d (.ok buf) send).body ≠ .jsuccess r)
    ∧ (send (mkEmail d buf) = .ok () →
      handler d (.ok buf) send = ⟨200, .jsuccess d.ref, some (mkEmail d buf)⟩
      ∧ (mkEmail d buf).content = String.mk (base64 buf)) := by
  constructor
  · intro e hs
    constructor
    · simp [handler, hv, hs]
    · intro r
      simp [handler, hv, hs]
  · intro hs
    exact ⟨by simp [handler, hv, hs], rfl⟩

/-- Witness for C7 at a concrete valid request whose dispatch channel
fails. -/
theorem c7_dispatch_failure_witness :
    handler
      { ref := .vstr "R1", date := .vstr "2026-10-12",
        amount := .vnum (50000 : ℚ), currency := .vstr "USD",
        beneficiario := .vstr "ACME Corp", dirBeneficiario := .vstr "1 Main St",
        bancoBeneficiario := .vstr "BBVA", swiftBeneficiario := .vstr "BBVAESMM",
        ibanBeneficiario := .vstr "ES12", submitterName := .vstr "Alice",
        submitterEmail := .vstr "a@example.com", bancoIntermediario := .undef,
        ciudadIntermediario := .undef, swiftIntermediario := .undef,
        aba := .undef, dirBanco := .vstr "Plaza Mayor 1",
        referencia := .undef } (.ok [37, 80, 68, 70])
      (fun _ => .error "smtp unavailable") =
      ⟨500, .jerror "smtp unavailable",
        some (mkEmail
          { ref := .vstr "R1", date := .vstr "2026-10-12",
            amount := .vnum (50000 : ℚ), currency := .vstr "USD",
            beneficiario := .vstr "ACME Corp", dirBeneficiario := .vstr "1 Main St",
            bancoBeneficiario := .vstr "BBVA", swiftBeneficiario := .vstr "BBVAESMM",
            ibanBeneficiario := .vstr "ES12", submitterName := .vstr "Alice",
            submitterEmail := .vstr "a@example.com", bancoIntermediario := .undef,
            ciudadIntermediario := .undef, swiftIntermediario := .undef,
            aba := .undef, dirBanco := .vstr "Plaza Mayor 1",
            referencia := .undef } [37, 80, 68, 70])⟩ :=
  ((c7_dispatch_failure _ [37, 80, 68, 70] (fun _ => .error "smtp unavailable")
    (by decide)).1 "smtp unavailable" rfl).1

theorem strEq {a b : String} (h : a.data = b.data) : a = b := by
  cases a
  cases b
  exact congrArg String.mk h

/-- C9: `ref` is not a required field, so a request whose nine required
fields are truthy but whose `ref` is absent passes validation; the
pipeline proceeds to a success acknowledgment with an undefined ref,
with the email subject and attachment filename containing the literal
text "undefined". -/
theorem c9_ref_undefined (d : Req) (buf : List Nat)
    (send : Email → Except String Unit)
    (hreq : ∀ f ∈ required, truthy (d.get f) = true)
    (href : d.ref = .undef)
    (hsend : send (mkEmail d buf) = .ok ()) :
    ("ref" ∉ required)
    ∧ firstMissing d = none
    ∧ (mkEmail d buf).filename = "Wire_Transfer_undefined.pdf"
    ∧ (mkEmail d buf).subject =
        "Wire Transfer Request undefined – " ++ jsToString d.beneficiario
          ++ " – " ++ fmt (toNum d.amount) ++ " " ++ jsToString d.currency
    ∧ handler d (.ok buf) send =
        ⟨200, .jsuccess .undef, some (mkEmail d buf)⟩ := by
  have hn : firstMissing d = none :=
    List.find?_eq_none.mpr (fun g hg => by simp [hreq g hg])
  refine ⟨by decide, hn, ?_, ?_, ?_⟩
  · simp only [mkEmail, href, jsToString]
    decide
  · refine strEq ?_
    have hpre : ("Wire Transfer Request undefined – ").data =
        ("Wire Transfer Request ").data ++ ("undefined").data
          ++ (" – ").data := by decide
    simp [mkEmail, href, jsToString, str_data_append, hpre,
      List.append_assoc]
  · simp [handler, hn, hsend, href]

/-- Witness for C9: a concrete request with all nine required fields
truthy and no `ref` yields the attachment filename
"Wire_Transfer_undefined.pdf". -/
theorem c9_ref_undefined_witness :
    (mkEmail
      { ref := .undef, date := .vstr "2026-10-12",
        amount := .vnum (50000 : ℚ), currency := .vstr "USD",
        beneficiario := .vstr "ACME Corp", dirBeneficiario := .vstr "1 Main St",
        bancoBeneficiario := .vstr "BBVA", swiftBeneficiario := .vstr "BBVAESMM",
        ibanBeneficiario := .vstr "ES12", submitterName := .vstr "Alice",
        submitterEmail := .vstr "a@example.com", bancoIntermediario := .undef,
        ciudadIntermediario := .undef, swiftIntermediario := .undef,
        aba := .undef, dirBanco := .vstr "Plaza Mayor 1",
        referencia := .undef } []).filename = "Wire_Transfer_undefined.pdf" :=
  (c9_ref_undefined _ [] (fun _ => .ok ()) (by decide) rfl rfl).2.2.1

/-- Witness for C1: at cursor 740 a 28-high row crosses the 750 boundary,
so the state after drawing it is one page later with the cursor at
72 + 28. -/
theorem c1_pagination_witness :
    (⟨0, 740⟩ : LayoutState).y + rowHeightOf "value" > 750
    ∧ (drawRow ⟨0, 740⟩ ("Label", "value")).2 =
        ⟨0 + 1, 72 + rowHeightOf "value"⟩ :=
  ⟨by decide, c1_pagination.2.2.1 ⟨0, 740⟩ ("Label", "value") (by decide)⟩
